import Mathlib

/-!
# Verification of the UniFood order-placement pipeline

Shallow embedding of the order pipeline of the UniFood repository:
the application context (`src/contexts/AppContext.tsx`, holding the cart,
order, notification and time-slot state and their operations), the checkout
component (`src/components/student/Cart.tsx`) and the recommendation context
(`src/contexts/RecommendationContext.tsx`).

Modelling conventions:
* JavaScript numbers carrying money/ratings are modelled as `Rat`; integer
  counters (quantities, preparation times) as `Int`/`Nat`.
* The Supabase persistent store is an external collaborator: each operation
  that inserts/updates a row takes the store's response as an explicit
  parameter (`Option DbRow` for inserts returning a generated row, `Bool`
  for updates), so the success and failure branches of the source are both
  embedded.
* `Math.random()`-derived values (daily token disambiguator, fake booked
  counts) are injected as parameters/streams.
* React `useState` state is gathered in an explicit `AppState` record; each
  source operation becomes a pure state-transformer.
-/

namespace Unifood

/-! ## Data model (`src/types.ts`) -/

structure NutritionalInfo where
  calories : Rat
  protein : Rat
  carbs : Rat
  fat : Rat
deriving Repr, DecidableEq, Inhabited

structure MenuItem where
  id : String
  name : String
  description : String
  price : Rat
  category : String
  image : String
  isVeg : Bool
  cuisine : String
  spiceLevel : Int
  allergens : List String
  nutritionalInfo : NutritionalInfo
  isAvailable : Bool
  ingredients : List String
  averageRating : Rat
  reviewCount : Int
  preparationTime : Int
deriving Repr, DecidableEq, Inhabited

/-- `CartItem extends MenuItem { quantity: number }`. -/
structure CartItem extends MenuItem where
  quantity : Int
deriving Repr, DecidableEq, Inhabited

/-- `Order['status']`: `'ordered' | 'preparing' | 'ready' | 'served' | 'cancelled'`. -/
inductive OrderStatus where
  | ordered
  | preparing
  | ready
  | served
  | cancelled
deriving Repr, DecidableEq, Inhabited

structure Order where
  id : String
  userId : String
  items : List CartItem
  totalAmount : Rat
  status : OrderStatus
  scheduledTime : String
  token : String
  createdAt : Nat
  paymentId : Option String
  specialInstructions : Option String
  estimatedPreparationTime : Int
deriving Repr, DecidableEq, Inhabited

structure TimeSlot where
  time : String
  available : Bool
  capacity : Int
  booked : Int
deriving Repr, DecidableEq, Inhabited

structure Notification where
  id : String
  userId : String
  title : String
  message : String
  type : String
  read : Bool
  createdAt : Nat
deriving Repr, DecidableEq, Inhabited

/-- `Omit<Notification, 'id' | 'createdAt'>`: the argument of `addNotification`. -/
structure NotificationInput where
  userId : String
  title : String
  message : String
  type : String
  read : Bool
deriving Repr, DecidableEq, Inhabited

structure User where
  id : String
  name : String
  email : String
  studentId : Option String
  role : String
  isVerified : Bool
  createdAt : Nat
  loyaltyPoints : Option Int
  dietaryRestrictions : Option (List String)
  allergens : Option (List String)
deriving Repr, DecidableEq, Inhabited

/-- The row returned by a successful Supabase `insert(...).select().single()`:
the store-generated identifier and creation timestamp. -/
structure DbRow where
  id : String
  createdAt : Nat
deriving Repr, DecidableEq, Inhabited

/-- The `useState` state held by `AppProvider` that the order pipeline touches
(`menuItems`, `cartItems`, `cartQuantities`, `orders`, `notifications`,
`timeSlots`).  `cartQuantities : Record<string, number>` is modelled as an
association list. -/
structure AppState where
  menuItems : List MenuItem
  cartItems : List CartItem
  cartQuantities : List (String × Int)
  orders : List Order
  notifications : List Notification
  timeSlots : List TimeSlot
deriving Repr, DecidableEq, Inhabited

/-! ## `Record<string, number>` helpers for `cartQuantities` -/

/-- `prev[k] || 0`. -/
def qget (l : List (String × Int)) (k : String) : Int :=
  (l.lookup k).getD 0

/-- `{ ...prev, [k]: v }`: every key keeps its value except `k`, which maps to `v`. -/
def qset (l : List (String × Int)) (k : String) (v : Int) : List (String × Int) :=
  (l.filter (fun kv => kv.1 ≠ k)) ++ [(k, v)]

/-- `delete newQuantities[k]`. -/
def qdel (l : List (String × Int)) (k : String) : List (String × Int) :=
  l.filter (fun kv => kv.1 ≠ k)

/-! ## Cart Aggregator (`AppContext.tsx`, `addToCart` / `removeFromCart` /
`updateCartQuantity` / `clearCart` / `cartTotal`) -/

/-- The `setCartItems` update of `addToCart`: `findIndex` on the item id; if a
line exists its quantity is incremented by 1 (`{ ...existing, quantity: q+1 }`
at that index), otherwise `{ ...item, quantity: 1 }` is appended. -/
def addLine (item : CartItem) : List CartItem → List CartItem
  | [] => [{ item with quantity := 1 }]
  | i :: rest =>
    if i.id = item.id then { i with quantity := i.quantity + 1 } :: rest
    else i :: addLine item rest

def addToCart (st : AppState) (item : CartItem) : AppState :=
  { st with
    cartItems := addLine item st.cartItems
    cartQuantities := qset st.cartQuantities item.id (qget st.cartQuantities item.id + 1) }

def removeFromCart (st : AppState) (itemId : String) : AppState :=
  { st with
    cartItems := st.cartItems.filter (fun i => i.id ≠ itemId)
    cartQuantities := qdel st.cartQuantities itemId }

/-- `updateCartQuantity(itemId, quantity)`: for `quantity === 0` the line is
filtered out; for every other quantity (positive or negative) the matching
line's quantity field is overwritten.  `cartQuantities[itemId]` is set to
`quantity` in both cases. -/
def updateCartQuantity (st : AppState) (itemId : String) (quantity : Int) : AppState :=
  { st with
    cartItems :=
      if quantity = 0 then st.cartItems.filter (fun i => i.id ≠ itemId)
      else st.cartItems.map (fun i => if i.id = itemId then { i with quantity } else i)
    cartQuantities := qset st.cartQuantities itemId quantity }

def clearCart (st : AppState) : AppState :=
  { st with cartItems := [], cartQuantities := [] }

/-- `cartTotal = cartItems.reduce((total, item) => total + item.price * item.quantity, 0)`. -/
def cartTotal (st : AppState) : Rat :=
  st.cartItems.foldl (fun total item => total + item.price * (item.quantity : Rat)) 0

/-! ## Notifications (`AppContext.tsx`, `addNotification`)

`addNotification` inserts the row into the store; on error it returns without
touching local state, on success it prepends the store-echoed notification. -/

def addNotification (st : AppState) (n : NotificationInput) (dbResult : Option DbRow) :
    AppState :=
  match dbResult with
  | none => st
  | some row =>
    { st with
      notifications :=
        { id := row.id, userId := n.userId, title := n.title, message := n.message
          type := n.type, read := n.read, createdAt := row.createdAt } :: st.notifications }

/-! ## Order Pipeline (`AppContext.tsx`, `createOrder`; `Cart.tsx`, `handleCheckout`) -/

/-- `createOrder(scheduledTime, specialInstructions?, paymentId?)`.

Injected collaborator inputs: `user` (from the auth context), `token` (the
`generateDailyToken()` result, whose disambiguator is `Math.random()`-based),
`dbResult` (the orders-table insert outcome) and `notifDb` (the
notifications-table insert outcome used by the nested `addNotification`).

Source behaviour: bail out with `''` when there is no user or the cart is
empty; on insert error log/toast and return `''` leaving all state untouched;
on success prepend the new order (`total_amount` is `cartTotal`, status
`'ordered'`, `estimated_preparation_time` the max of the line prep times),
clear the cart, emit the "Order Placed Successfully" notification and return
the store-generated order id.  (The inserted row also carries a
`payment_status` column, which is not part of the local `Order` record.) -/
def createOrder (st : AppState) (user : Option User) (scheduledTime : String)
    (specialInstructions : Option String) (paymentId : Option String)
    (token : String) (dbResult : Option DbRow) (notifDb : Option DbRow) :
    AppState × String :=
  match user with
  | none => (st, "")
  | some u =>
    if st.cartItems = [] then (st, "")
    else
      match dbResult with
      | none => (st, "")
      | some row =>
        let estimatedTime :=
          st.cartItems.foldl (fun total item => max total item.preparationTime) 0
        let newOrder : Order :=
          { id := row.id, userId := u.id, items := st.cartItems
            totalAmount := cartTotal st, status := .ordered
            scheduledTime := scheduledTime, token := token
            createdAt := row.createdAt, paymentId := paymentId
            specialInstructions := specialInstructions
            estimatedPreparationTime := estimatedTime }
        let st1 := { st with orders := newOrder :: st.orders }
        let st2 := clearCart st1
        let st3 := addNotification st2
          { userId := u.id, title := "Order Placed Successfully"
            message := "Your order #" ++ token ++
              " has been placed and will be ready by " ++ scheduledTime
            type := "success", read := false } notifDb
        (st3, row.id)

/-- The amount `Cart.tsx`'s `handleCheckout` sends to `processPayment`:
`cartTotal * 1.05` ("Including tax"). -/
def checkoutChargeAmount (st : AppState) : Rat :=
  cartTotal st * (1.05 : Rat)

/-! ## Order State Machine (`AppContext.tsx`, `updateOrderStatus`)

The source performs **no** legality check on the requested transition: it
issues the store update and, when that succeeds, maps over the orders setting
`{ ...order, status }` on the matching id.  For the matching order it also
fires `addNotification` with a status-specific message — unless the target
status has no entry in `statusMessages` (only `'ordered'` has none). -/

/-- `statusMessages[status]` (`undefined`, i.e. `none`, for `'ordered'`). -/
def statusMessage : OrderStatus → Option String
  | .preparing => some "Your order is being prepared"
  | .ready => some "Your order is ready for pickup"
  | .served => some "Your order has been served"
  | .cancelled => some "Your order has been cancelled"
  | .ordered => none

/-- The literal of the TS union value, used to build the notification title
`'Order ' + status.charAt(0).toUpperCase() + status.slice(1)`. -/
def statusName : OrderStatus → String
  | .ordered => "ordered"
  | .preparing => "preparing"
  | .ready => "ready"
  | .served => "served"
  | .cancelled => "cancelled"

/-- `updateOrderStatus(orderId, status)`.  `dbOk` is the outcome of the store
update (on error nothing changes locally); `notifDb` is the notification
insert outcome.  Order ids are store-generated and unique, so the
notification side effect of the source's `map` fires for the first matching
order. -/
def updateOrderStatus (st : AppState) (orderId : String) (status : OrderStatus)
    (dbOk : Bool) (notifDb : Option DbRow) : AppState :=
  if dbOk then
    let newOrders := st.orders.map (fun o => if o.id = orderId then { o with status } else o)
    let stN :=
      match st.orders.find? (fun o => o.id = orderId), statusMessage status with
      | some o, some msg =>
        addNotification st
          { userId := o.userId
            title := "Order " ++ (statusName status).capitalize
            message := msg ++ " - Token: " ++ o.token
            type := if status = OrderStatus.cancelled then "error" else "info"
            read := false } notifDb
      | _, _ => st
    { stN with orders := newOrders }
  else st

/-! ## Slot Capacity Manager (`AppContext.tsx`, `generateTimeSlots`)

Time is injected as the wall-clock hour/minute; times of day are measured in
minutes after midnight (closing time 22:00 is minute 1320).  The
`Math.floor(Math.random() * 10)` booked counts are injected as the stream
`rand`. -/

/-- `${h.padStart(2,'0')}:${m.padStart(2,'0')}` for the slot at minute `t`. -/
def pad2 (n : Nat) : String :=
  if n < 10 then "0" ++ toString n else toString n

def timeString (t : Nat) : String :=
  pad2 (t / 60) ++ ":" ++ pad2 (t % 60)

/-- The `while (currentSlotTime <= endOfDay)` loop: one slot every 15 minutes
while the slot minute stays ≤ 1320 (22:00), each with capacity 20,
`available: true` and a random booked count. -/
def slotsFrom (rand : Nat → Nat) (k : Nat) (t : Nat) : List TimeSlot :=
  if t ≤ 1320 then
    { time := timeString t, available := true, capacity := 20
      booked := (rand k : Int) } :: slotsFrom rand (k + 1) (t + 15)
  else []
termination_by 1321 - t
decreasing_by omega

/-- `generateTimeSlots()`: empty when `currentHour > 22 || (currentHour === 22
&& currentMinute >= 0)`; otherwise slots start at
`startHour = currentHour`, `startMinute = Math.ceil((currentMinute + 30) / 15) * 15`
(the `Date` constructor normalises a minute ≥ 60 into the hour, i.e. the
start is minute `60 * currentHour + startMinute` of the day). -/
def generateTimeSlots (currentHour currentMinute : Nat) (rand : Nat → Nat) :
    List TimeSlot :=
  if 22 < currentHour ∨ (currentHour = 22 ∧ 0 ≤ currentMinute) then []
  else
    let startMinute := ((currentMinute + 30 + 14) / 15) * 15
    slotsFrom rand 0 (60 * currentHour + startMinute)

/-! ## Manager catalog edit (`AppContext.tsx`, `updateMenuItem`)

`updateMenuItem(itemId, updates: Partial<MenuItem>)` merges
`{ ...item, ...updates }` into the matching catalog item when the store
update succeeds. -/

/-- `Partial<MenuItem>`. -/
structure MenuItemPatch where
  id : Option String := none
  name : Option String := none
  description : Option String := none
  price : Option Rat := none
  category : Option String := none
  image : Option String := none
  isVeg : Option Bool := none
  cuisine : Option String := none
  spiceLevel : Option Int := none
  allergens : Option (List String) := none
  nutritionalInfo : Option NutritionalInfo := none
  isAvailable : Option Bool := none
  ingredients : Option (List String) := none
  averageRating : Option Rat := none
  reviewCount : Option Int := none
  preparationTime : Option Int := none
deriving Repr, DecidableEq, Inhabited

/-- `{ ...item, ...updates }`. -/
def applyPatch (item : MenuItem) (p : MenuItemPatch) : MenuItem :=
  { id := p.id.getD item.id
    name := p.name.getD item.name
    description := p.description.getD item.description
    price := p.price.getD item.price
    category := p.category.getD item.category
    image := p.image.getD item.image
    isVeg := p.isVeg.getD item.isVeg
    cuisine := p.cuisine.getD item.cuisine
    spiceLevel := p.spiceLevel.getD item.spiceLevel
    allergens := p.allergens.getD item.allergens
    nutritionalInfo := p.nutritionalInfo.getD item.nutritionalInfo
    isAvailable := p.isAvailable.getD item.isAvailable
    ingredients := p.ingredients.getD item.ingredients
    averageRating := p.averageRating.getD item.averageRating
    reviewCount := p.reviewCount.getD item.reviewCount
    preparationTime := p.preparationTime.getD item.preparationTime }

def updateMenuItem (st : AppState) (itemId : String) (updates : MenuItemPatch)
    (dbOk : Bool) : AppState :=
  if dbOk then
    { st with
      menuItems := st.menuItems.map (fun i => if i.id = itemId then applyPatch i updates else i) }
  else st

/-! ## Recommendation / allergen gate (`RecommendationContext.tsx`) -/

/-- JavaScript `toLowerCase()`, modelled character-wise (ASCII case folding;
the repository's restriction and allergen strings are ASCII).  Defined via the
character list rather than `String.toLower` so that concrete runs reduce
inside the kernel. -/
def strToLower (s : String) : String :=
  ⟨s.data.map Char.toLower⟩

/-- The blocking decision of `checkAllergen(item, onProceed)`:
`itemAllergens.some(a => userAllergens.includes(a))` with
`userAllergens = user?.allergens || []`.  When it is `true` the alert is
shown (the action waits for explicit confirmation), otherwise `onProceed()`
runs immediately.  String comparison is JavaScript `===`, i.e.
case-sensitive. -/
def checkAllergenBlocked (user : Option User) (item : MenuItem) : Bool :=
  let userAllergens := (user.bind (fun u => u.allergens)).getD []
  let itemAllergens := item.allergens
  itemAllergens.any (fun a => userAllergens.contains a)

/-- `getProfileRecommendations()`.

With a logged-in user whose `dietaryRestrictions` is a non-empty list, the
whole catalog is filtered by per-restriction compliance (no availability
check and no result-count cap).  Otherwise the source falls back to past
orders merged with the catalog sorted by rating (descending, stable), capped
at 5, and finally to the first five catalog items. -/
def getProfileRecommendations (user : Option User) (menuItems : List MenuItem)
    (orders : List Order) : List MenuItem :=
  match user with
  | none => menuItems.take 5
  | some u =>
    let restrictions := u.dietaryRestrictions.getD []
    if restrictions.length > 0 then
      menuItems.filter (fun item =>
        restrictions.all (fun restriction =>
          let lr := strToLower restriction
          if lr = "vegetarian" ∨ lr = "veg" then item.isVeg
          else if lr = "vegan" then
            item.isVeg && !(item.allergens.contains "dairy")
              && !(item.allergens.contains "egg")
          else if lr = "gluten-free" then !(item.allergens.contains "gluten")
          else true))
    else
      let userOrders := orders.filter (fun o => o.userId = u.id)
      if userOrders.length > 0 then
        let orderedItems := userOrders.flatMap (fun o => o.items.map CartItem.toMenuItem)
        let topRatedItems :=
          menuItems.insertionSort (fun a b => b.averageRating ≤ a.averageRating)
        (orderedItems ++ topRatedItems).take 5
      else menuItems.take 5

/-! ## Cart-operation sequences

The cart-aggregator claims quantify over "every sequence of
addOrIncrement/setQuantity/remove operations"; `CartOp` reifies the three
cart mutators of `AppContext.tsx`. -/

inductive CartOp where
  | add (item : CartItem)
  | setQty (itemId : String) (quantity : Int)
  | remove (itemId : String)
deriving Repr, DecidableEq, Inhabited

def applyCartOp (st : AppState) : CartOp → AppState
  | .add item => addToCart st item
  | .setQty itemId quantity => updateCartQuantity st itemId quantity
  | .remove itemId => removeFromCart st itemId

def applyCartOps (st : AppState) (ops : List CartOp) : AppState :=
  ops.foldl applyCartOp st

/-- An operation sequence whose `setQuantity` calls all carry a non-negative
quantity. -/
def setQtyNonNeg : CartOp → Bool
  | .setQty _ quantity => decide (0 ≤ quantity)
  | _ => true

/-! ## Spec-side definitions

These follow the specification's wording and are compared against the
definitions embedded from the source above. -/

/-- Spec wording: "rounded to the minor currency unit" — round half-up to
two decimal places. -/
def roundToMinorUnit (x : Rat) : Rat :=
  ((Rat.floor (x * 100 + 1 / 2) : Int) : Rat) / 100

/-- Spec wording: "the frozen cart-snapshot subtotal (sum over lines of
quantity × price)". -/
def snapshotSubtotal (lines : List CartItem) : Rat :=
  (lines.map (fun l => l.price * (l.quantity : Rat))).sum

/-- Spec wording (claim C1): "the frozen cart-snapshot subtotal multiplied by
1.05, rounded to the minor currency unit". -/
def specOrderTotal (lines : List CartItem) : Rat :=
  roundToMinorUnit (snapshotSubtotal lines * (1.05 : Rat))

/-- Spec wording (claim C5): blocked iff "the item's allergen set intersects
the user's allergen set under case-insensitive comparison". -/
def specBlockedCaseInsensitive (userAllergens itemAllergens : List String) : Bool :=
  itemAllergens.any (fun a => userAllergens.any (fun b => strToLower a = strToLower b))

/-- The current catalog price of the item with the given id (0 when absent). -/
def catalogPrice (menuItems : List MenuItem) (itemId : String) : Rat :=
  ((menuItems.find? (fun i => i.id = itemId)).map (fun i => i.price)).getD 0

/-- Spec wording (claim C6): "the sum over cart lines of (line quantity × the
current catalog price of the referenced item at the time the total is
computed)". -/
def specCartTotalCurrentCatalog (st : AppState) : Rat :=
  (st.cartItems.map (fun l => (l.quantity : Rat) * catalogPrice st.menuItems l.id)).sum

/-- Spec wording (claim C8): "the next quarter-hour boundary obtained by
rounding now+30 minutes up" — the least multiple of 15 that is ≥ `x`. -/
def ceil15 (x : Nat) : Nat :=
  ((x + 14) / 15) * 15

/-- The number of 15-minute steps from `s` "through closing time (22:00)
inclusive" (minute 1320); zero when the start is already past closing. -/
def slotCount (s : Nat) : Nat :=
  if s ≤ 1320 then (1320 - s) / 15 + 1 else 0

/-- Spec wording (claim C9): an item complies with a dietary restriction —
"vegetarian/vegan require isVeg; vegan additionally excludes dairy/egg
allergens; gluten-free excludes the gluten allergen" (following the source's
restriction spelling, lower-cased, with unrecognized restrictions imposing
nothing). -/
def compliantSpec (restrictions : List String) (item : MenuItem) : Prop :=
  ∀ r ∈ restrictions,
    ((strToLower r = "vegetarian" ∨ strToLower r = "veg") → item.isVeg = true) ∧
    (strToLower r = "vegan" →
      item.isVeg = true ∧ "dairy" ∉ item.allergens ∧ "egg" ∉ item.allergens) ∧
    (strToLower r = "gluten-free" → "gluten" ∉ item.allergens)

/-! ## Sample data (from `SAMPLE_MENU_ITEMS` in `AppContext.tsx`) used by
witnesses and counterexamples -/

def sampleBiryani : MenuItem :=
  { id := "1", name := "Chicken Biryani"
    description := "Aromatic basmati rice cooked with tender chicken pieces and traditional spices"
    price := 120, category := "Main Course"
    image := "https://images.pexels.com/photos/1247755/pexels-photo-1247755.jpeg"
    isVeg := false, cuisine := "Indian", spiceLevel := 3, allergens := ["dairy"]
    nutritionalInfo := { calories := 450, protein := 25, carbs := 60, fat := 15 }
    isAvailable := true
    ingredients := ["Chicken", "Basmati Rice", "Spices", "Yogurt", "Onions"]
    averageRating := (9 : Rat) / 2, reviewCount := 23, preparationTime := 25 }

def samplePaneer : MenuItem :=
  { id := "2", name := "Paneer Butter Masala"
    description := "Rich and creamy tomato-based curry with soft paneer cubes"
    price := 100, category := "Main Course"
    image := "https://images.pexels.com/photos/2474658/pexels-photo-2474658.jpeg"
    isVeg := true, cuisine := "Indian", spiceLevel := 2, allergens := ["dairy"]
    nutritionalInfo := { calories := 320, protein := 18, carbs := 15, fat := 22 }
    isAvailable := true
    ingredients := ["Paneer", "Tomatoes", "Cream", "Spices", "Onions"]
    averageRating := (43 : Rat) / 10, reviewCount := 18, preparationTime := 20 }

def sampleUser : User :=
  { id := "u1", name := "Asha", email := "asha@example.edu", studentId := some "S1001"
    role := "student", isVerified := true, createdAt := 0, loyaltyPoints := some 0
    dietaryRestrictions := some [], allergens := some ["dairy", "nuts"] }

/-- An app state holding the sample catalog and a cart with one Chicken
Biryani line at quantity 2 (the 120 × 2 scenario of the spec). -/
def sampleState : AppState :=
  { menuItems := [sampleBiryani, samplePaneer]
    cartItems := [{ sampleBiryani with quantity := 2 }]
    cartQuantities := [("1", 2)]
    orders := [], notifications := [], timeSlots := [] }

/-- An already-served order, for exercising the status-update operation. -/
def sampleOrder : Order :=
  { id := "o1", userId := "u1", items := [{ sampleBiryani with quantity := 2 }]
    totalAmount := 240, status := .served, scheduledTime := "12:30"
    token := "251010-001", createdAt := 100, paymentId := some "pay_1"
    specialInstructions := none, estimatedPreparationTime := 25 }

/-- A state whose only order is already in the terminal `served` status. -/
def servedState : AppState :=
  { sampleState with cartItems := [], cartQuantities := [], orders := [sampleOrder] }

/-- The sample catalog with an empty cart. -/
def emptyCartState : AppState :=
  { menuItems := [sampleBiryani, samplePaneer]
    cartItems := [], cartQuantities := []
    orders := [], notifications := [], timeSlots := [] }

/-- Add the Biryani (catalog price 120) to the empty cart, then have the
manager raise its catalog price to 200: the cart line still carries the
frozen price 120. -/
def stalePriceState : AppState :=
  updateMenuItem (addToCart emptyCartState { sampleBiryani with quantity := 1 })
    "1" { price := some 200 } true

/-- The sample user with the single dietary restriction "vegetarian". -/
def vegUser : User :=
  { sampleUser with dietaryRestrictions := some ["vegetarian"] }

/-- The (vegetarian) Paneer Butter Masala marked unavailable. -/
def unavailablePaneer : MenuItem :=
  { samplePaneer with isAvailable := false }

/-- A batch of distinct vegetarian catalog items, for exhibiting the absence
of a result-count cap. -/
def mkVeg (n : Nat) : MenuItem :=
  { samplePaneer with id := "veg-" ++ toString n }

/-- The `Order` record built by a successful `createOrder` run. -/
def builtOrder (st : AppState) (u : User) (sched : String) (si pid : Option String)
    (tok : String) (row : DbRow) : Order :=
  { id := row.id, userId := u.id, items := st.cartItems, totalAmount := cartTotal st
    status := .ordered, scheduledTime := sched, token := tok, createdAt := row.createdAt
    paymentId := pid, specialInstructions := si
    estimatedPreparationTime := st.cartItems.foldl (fun total item => max total item.preparationTime) 0 }

/-! ## Helper lemmas -/

theorem addNotification_orders (st : AppState) (n : NotificationInput)
    (dbResult : Option DbRow) : (addNotification st n dbResult).orders = st.orders := by
  cases dbResult <;> rfl

theorem addNotification_cartItems (st : AppState) (n : NotificationInput)
    (dbResult : Option DbRow) : (addNotification st n dbResult).cartItems = st.cartItems := by
  cases dbResult <;> rfl

theorem addNotification_cartQuantities (st : AppState) (n : NotificationInput)
    (dbResult : Option DbRow) :
    (addNotification st n dbResult).cartQuantities = st.cartQuantities := by
  cases dbResult <;> rfl

/-- `cartTotal`'s `reduce` computes the spec's Σ quantity × price over the
current lines. -/
theorem foldl_price_eq (ls : List CartItem) (a : Rat) :
    ls.foldl (fun total item => total + item.price * (item.quantity : Rat)) a =
      a + snapshotSubtotal ls := by
  induction ls generalizing a with
  | nil => simp [snapshotSubtotal]
  | cons i t ih => simp [snapshotSubtotal, List.foldl_cons, ih]; ring

theorem cartTotal_eq_subtotal (st : AppState) :
    cartTotal st = snapshotSubtotal st.cartItems := by
  simpa [cartTotal] using foldl_price_eq st.cartItems 0

/-- On a successful store update, `updateOrderStatus` maps the requested
status over the matching orders, with no legality precondition. -/
theorem updateOrderStatus_orders_eq (st : AppState) (orderId : String)
    (status : OrderStatus) (notifDb : Option DbRow) :
    (updateOrderStatus st orderId status true notifDb).orders =
      st.orders.map (fun o => if o.id = orderId then { o with status } else o) := rfl

theorem zip_map_snd {α : Type} (f : α → α) :
    ∀ (l : List α), ∀ p ∈ l.zip (l.map f), p.2 = f p.1 := by
  intro l
  induction l with
  | nil => intro p hp; simp at hp
  | cons a t ih =>
    intro p hp
    simp only [List.map_cons, List.zip_cons_cons, List.mem_cons] at hp
    rcases hp with rfl | hp
    · rfl
    · exact ih p hp

/-! ## Claim C2 — order-status transition legality -/

/-- C2 counterexample: the claim says a transition out of `served` "fails
with IllegalTransition and performs no mutation of the order"; in the code
the update from `served` to `preparing` goes through and mutates the order's
status. -/
theorem updateOrderStatus_served_cex :
    servedState.orders.map Order.status = [OrderStatus.served] ∧
    (updateOrderStatus servedState "o1" OrderStatus.preparing true none).orders.map
        Order.status = [OrderStatus.preparing] := by
  exact ⟨rfl, rfl⟩

/-- C2 (amended): `updateOrderStatus` performs no transition-legality check:
whatever the current status of the matching order — `served` and `cancelled`
included — a successful store update overwrites its status with the requested
target status (there is no `IllegalTransition` rejection anywhere in the
code). -/
theorem updateOrderStatus_accepts_all (st : AppState) (orderId : String)
    (status : OrderStatus) (notifDb : Option DbRow) :
    (updateOrderStatus st orderId status true notifDb).orders.map Order.status =
      st.orders.map (fun o => if o.id = orderId then status else o.status) := by
  rw [updateOrderStatus_orders_eq, List.map_map]
  apply List.map_congr_left
  intro o _
  by_cases h : o.id = orderId <;> simp [h]

/-! ## Claim C10 — frame property of a successful status update -/

/-- C10: a successful `updateOrderStatus` changes only the status field of
the order whose id matches; every other field of that order is unchanged,
and every order with a different id is wholly unchanged. -/
theorem updateOrderStatus_frame (st : AppState) (orderId : String)
    (status : OrderStatus) (notifDb : Option DbRow) (o o' : Order)
    (hmem : (o, o') ∈ st.orders.zip (updateOrderStatus st orderId status true notifDb).orders) :
    (updateOrderStatus st orderId status true notifDb).orders.length = st.orders.length ∧
    (o.id = orderId →
      o'.status = status ∧ o'.id = o.id ∧ o'.userId = o.userId ∧ o'.items = o.items ∧
      o'.totalAmount = o.totalAmount ∧ o'.scheduledTime = o.scheduledTime ∧
      o'.token = o.token ∧ o'.createdAt = o.createdAt ∧ o'.paymentId = o.paymentId ∧
      o'.specialInstructions = o.specialInstructions ∧
      o'.estimatedPreparationTime = o.estimatedPreparationTime) ∧
    (o.id ≠ orderId → o' = o) := by
  rw [updateOrderStatus_orders_eq] at hmem ⊢
  have h2 := zip_map_snd (fun o => if o.id = orderId then { o with status } else o)
    st.orders (o, o') hmem
  simp only at h2
  refine ⟨List.length_map _ _, ?_, ?_⟩
  · intro hid
    rw [h2, if_pos hid]
    simp [hid]
  · intro hid
    rw [h2, if_neg hid]

/-- C10 witness: concrete run on the served sample order. -/
theorem updateOrderStatus_frame_witness :
    (updateOrderStatus servedState "o1" OrderStatus.ready true none).orders.length =
      servedState.orders.length ∧
    ((updateOrderStatus servedState "o1" OrderStatus.ready true none).orders.headI.token =
      sampleOrder.token ∧
     (updateOrderStatus servedState "o1" OrderStatus.ready true none).orders.headI.status =
      OrderStatus.ready) := by
  have h := updateOrderStatus_frame servedState "o1" OrderStatus.ready none
    sampleOrder ((updateOrderStatus servedState "o1" OrderStatus.ready true none).orders.headI)
    (by rw [updateOrderStatus_orders_eq]; exact List.mem_cons_self _ _)
  have h' := h.2.1 (by rfl)
  exact ⟨h.1, h'.2.2.2.2.2.2.1, h'.1⟩

/-! ## Branch lemmas for `createOrder` -/

theorem createOrder_noneDb (st : AppState) (u : User) (sched : String)
    (si pid : Option String) (tok : String) (ndb : Option DbRow) :
    createOrder st (some u) sched si pid tok none ndb = (st, "") := by
  simp only [createOrder]
  split <;> rfl

theorem createOrder_emptyCart (st : AppState) (u : User) (sched : String)
    (si pid : Option String) (tok : String) (db ndb : Option DbRow)
    (h : st.cartItems = []) :
    createOrder st (some u) sched si pid tok db ndb = (st, "") := by
  simp only [createOrder, if_pos h]

theorem createOrder_success_orders (st : AppState) (u : User) (sched : String)
    (si pid : Option String) (tok : String) (row : DbRow) (ndb : Option DbRow)
    (hcart : st.cartItems ≠ []) :
    (createOrder st (some u) sched si pid tok (some row) ndb).1.orders =
      builtOrder st u sched si pid tok row :: st.orders := by
  simp only [createOrder, if_neg hcart]
  simp [addNotification_orders, clearCart, builtOrder]

theorem createOrder_success_cartItems (st : AppState) (u : User) (sched : String)
    (si pid : Option String) (tok : String) (row : DbRow) (ndb : Option DbRow)
    (hcart : st.cartItems ≠ []) :
    (createOrder st (some u) sched si pid tok (some row) ndb).1.cartItems = [] := by
  simp only [createOrder, if_neg hcart]
  simp [addNotification_cartItems, clearCart]

theorem createOrder_success_cartQuantities (st : AppState) (u : User) (sched : String)
    (si pid : Option String) (tok : String) (row : DbRow) (ndb : Option DbRow)
    (hcart : st.cartItems ≠ []) :
    (createOrder st (some u) sched si pid tok (some row) ndb).1.cartQuantities = [] := by
  simp only [createOrder, if_neg hcart]
  simp [addNotification_cartQuantities, clearCart]

theorem createOrder_success_notifications (st : AppState) (u : User) (sched : String)
    (si pid : Option String) (tok : String) (row nrow : DbRow)
    (hcart : st.cartItems ≠ []) :
    (createOrder st (some u) sched si pid tok (some row) (some nrow)).1.notifications =
      { id := nrow.id, userId := u.id, title := "Order Placed Successfully"
        message := "Your order #" ++ tok ++ " has been placed and will be ready by " ++ sched
        type := "success", read := false, createdAt := nrow.createdAt } :: st.notifications := by
  simp only [createOrder, if_neg hcart]
  simp [addNotification, clearCart]

/-! ## Claim C4 — atomicity of order persistence -/

/-- C4: when the store insert fails, `createOrder` leaves the state exactly
unchanged (no order added, cart untouched, no notification) and returns
`''`; only on successful persistence does it prepend the new order, clear
the cart and emit the "Order Placed Successfully" notification. -/
theorem createOrder_atomic (st : AppState) (u : User) (sched : String)
    (si pid : Option String) (tok : String) (ndbF : Option DbRow) :
    createOrder st (some u) sched si pid tok none ndbF = (st, "") ∧
    (∀ row ndb : DbRow, st.cartItems ≠ [] →
      ((createOrder st (some u) sched si pid tok (some row) (some ndb)).1.orders.length =
          st.orders.length + 1 ∧
        ∃ o : Order,
          (createOrder st (some u) sched si pid tok (some row) (some ndb)).1.orders =
            o :: st.orders) ∧
      (createOrder st (some u) sched si pid tok (some row) (some ndb)).1.cartItems = [] ∧
      (createOrder st (some u) sched si pid tok (some row) (some ndb)).1.cartQuantities = [] ∧
      ∃ n : Notification,
        (createOrder st (some u) sched si pid tok (some row) (some ndb)).1.notifications =
          n :: st.notifications ∧
        n.title = "Order Placed Successfully" ∧ n.userId = u.id ∧ n.type = "success") := by
  refine ⟨createOrder_noneDb st u sched si pid tok ndbF, ?_⟩
  intro row ndb hcart
  refine ⟨⟨?_, ⟨_, createOrder_success_orders st u sched si pid tok row (some ndb) hcart⟩⟩,
    createOrder_success_cartItems st u sched si pid tok row (some ndb) hcart,
    createOrder_success_cartQuantities st u sched si pid tok row (some ndb) hcart,
    ⟨_, createOrder_success_notifications st u sched si pid tok row ndb hcart, rfl, rfl, rfl⟩⟩
  rw [createOrder_success_orders st u sched si pid tok row (some ndb) hcart]
  simp

/-- C4 witness: concrete failing and succeeding persistence runs on the
sample cart. -/
theorem createOrder_atomic_witness :
    createOrder sampleState (some sampleUser) "12:30" none (some "pay_1") "251010-001"
        none none = (sampleState, "") ∧
    ((createOrder sampleState (some sampleUser) "12:30" none (some "pay_1") "251010-001"
          (some ⟨"o1", 100⟩) (some ⟨"n1", 101⟩)).1.orders.length =
        sampleState.orders.length + 1 ∧
      ∃ o : Order,
        (createOrder sampleState (some sampleUser) "12:30" none (some "pay_1") "251010-001"
            (some ⟨"o1", 100⟩) (some ⟨"n1", 101⟩)).1.orders = o :: sampleState.orders) ∧
    (createOrder sampleState (some sampleUser) "12:30" none (some "pay_1") "251010-001"
        (some ⟨"o1", 100⟩) (some ⟨"n1", 101⟩)).1.cartItems = [] ∧
    (createOrder sampleState (some sampleUser) "12:30" none (some "pay_1") "251010-001"
        (some ⟨"o1", 100⟩) (some ⟨"n1", 101⟩)).1.cartQuantities = [] ∧
    ∃ n : Notification,
      (createOrder sampleState (some sampleUser) "12:30" none (some "pay_1") "251010-001"
          (some ⟨"o1", 100⟩) (some ⟨"n1", 101⟩)).1.notifications =
        n :: sampleState.notifications ∧
      n.title = "Order Placed Successfully" ∧ n.userId = sampleUser.id ∧ n.type = "success" := by
  have h := createOrder_atomic sampleState sampleUser "12:30" none (some "pay_1")
    "251010-001" none
  exact ⟨h.1, h.2 ⟨"o1", 100⟩ ⟨"n1", 101⟩ (by decide)⟩

/-! ## Claim C1 — the stored order total -/

/-- C1 counterexample: for the spec's own scenario (one line priced 120 at
quantity 2) the claim says the stored order total is 252.00 (= 240 × 1.05
rounded to the minor unit); the code stores `total_amount: cartTotal`, i.e.
240, while only the amount sent to the payment processor is 252. -/
theorem createOrder_total_no_tax_cex :
    (createOrder sampleState (some sampleUser) "12:30" none (some "pay_1") "251010-001"
        (some ⟨"o1", 100⟩) none).1.orders.map Order.totalAmount = [(240 : Rat)] ∧
    specOrderTotal sampleState.cartItems = 252 ∧
    checkoutChargeAmount sampleState = 252 ∧
    (240 : Rat) ≠ 252 := by
  have hsub : snapshotSubtotal sampleState.cartItems = 240 := by
    norm_num [snapshotSubtotal, sampleState, sampleBiryani]
  have htot : cartTotal sampleState = 240 := by
    rw [cartTotal_eq_subtotal]; exact hsub
  refine ⟨?_, ?_, ?_, by norm_num⟩
  · rw [createOrder_success_orders sampleState sampleUser "12:30" none (some "pay_1")
      "251010-001" ⟨"o1", 100⟩ none (by decide),
      show sampleState.orders = [] from rfl]
    simp only [List.map_cons, List.map_nil]
    rw [show (builtOrder sampleState sampleUser "12:30" none (some "pay_1") "251010-001"
      ⟨"o1", 100⟩).totalAmount = cartTotal sampleState from rfl, htot]
  · rw [specOrderTotal, hsub]
    have h : ((240 : Rat) * 1.05 * 100 + 1 / 2) = 50401 / 2 := by norm_num
    rw [roundToMinorUnit, h]
    have h2 : Rat.floor (50401 / 2 : ℚ) = 25200 := by
      have he : Rat.floor (50401 / 2 : ℚ) = ⌊(50401 / 2 : ℚ)⌋ := rfl
      rw [he, Int.floor_eq_iff]
      constructor <;> norm_num
    rw [h2]
    norm_num
  · rw [checkoutChargeAmount, htot]
    norm_num

/-- C1 (amended): the created Order's stored total amount equals the frozen
cart-snapshot subtotal (sum over lines of quantity × price) with **no** tax
multiplier; the subtotal × 1.05 amount is only what `handleCheckout` charges
through the payment processor.  In particular, for a cart with one line
priced 120 at quantity 2, the stored order total is 240 while 252 is
charged. -/
theorem createOrder_totalAmount_subtotal (st : AppState) (u : User) (sched : String)
    (si pid : Option String) (tok : String) (row : DbRow) (ndb : Option DbRow)
    (hcart : st.cartItems ≠ []) :
    (∃ o : Order,
      (createOrder st (some u) sched si pid tok (some row) ndb).1.orders = o :: st.orders ∧
      o.items = st.cartItems ∧
      o.totalAmount = snapshotSubtotal st.cartItems) ∧
    checkoutChargeAmount st = snapshotSubtotal st.cartItems * (1.05 : Rat) := by
  constructor
  · exact ⟨builtOrder st u sched si pid tok row,
      createOrder_success_orders st u sched si pid tok row ndb hcart, rfl,
      cartTotal_eq_subtotal st⟩
  · rw [checkoutChargeAmount, cartTotal_eq_subtotal]

/-- C1 witness: the 120 × 2 sample cart. -/
theorem createOrder_totalAmount_subtotal_witness :
    (∃ o : Order,
      (createOrder sampleState (some sampleUser) "12:30" none (some "pay_1") "251010-001"
          (some ⟨"o1", 100⟩) none).1.orders = o :: sampleState.orders ∧
      o.items = sampleState.cartItems ∧
      o.totalAmount = snapshotSubtotal sampleState.cartItems) ∧
    checkoutChargeAmount sampleState = snapshotSubtotal sampleState.cartItems * (1.05 : Rat) :=
  createOrder_totalAmount_subtotal sampleState sampleUser "12:30" none (some "pay_1")
    "251010-001" ⟨"o1", 100⟩ none (by decide)

/-! ## Claim C3 — idempotency on the payment reference -/

/-- C3: running `createOrder` twice in a row with the same payment reference
yields exactly one Order record carrying that reference, provided the user
is logged in, the cart is initially non-empty, no pre-existing order already
carries the reference, and at least one of the two persistence attempts
succeeds.  (Mechanism: a successful first call clears the cart, so the
second call bails out on the empty-cart guard; a failed first call leaves
the cart intact for the retry.) -/
theorem createOrder_idempotent_paymentRef (st : AppState) (u : User)
    (sched1 sched2 : String) (si1 si2 : Option String) (p : String)
    (tok1 tok2 : String) (db1 db2 ndb1 ndb2 : Option DbRow)
    (hcart : st.cartItems ≠ [])
    (hfresh : ∀ o ∈ st.orders, o.paymentId ≠ some p)
    (hsucc : db1.isSome ∨ db2.isSome) :
    (((createOrder
          (createOrder st (some u) sched1 si1 (some p) tok1 db1 ndb1).1
          (some u) sched2 si2 (some p) tok2 db2 ndb2).1).orders.filter
        (fun o => o.paymentId == some p)).length = 1 := by
  have hbase : (st.orders.filter (fun o => o.paymentId == some p)) = [] := by
    rw [List.filter_eq_nil_iff]
    intro o ho
    simpa using hfresh o ho
  cases db1 with
  | some row1 =>
    rw [createOrder_emptyCart _ u sched2 si2 (some p) tok2 db2 ndb2
      (createOrder_success_cartItems st u sched1 si1 (some p) tok1 row1 ndb1 hcart)]
    show ((createOrder st (some u) sched1 si1 (some p) tok1 (some row1) ndb1).1.orders.filter
      (fun o => o.paymentId == some p)).length = 1
    rw [createOrder_success_orders st u sched1 si1 (some p) tok1 row1 ndb1 hcart]
    simp [List.filter_cons, builtOrder, hbase]
  | none =>
    rw [createOrder_noneDb st u sched1 si1 (some p) tok1 ndb1]
    cases db2 with
    | some row2 =>
      show ((createOrder st (some u) sched2 si2 (some p) tok2 (some row2) ndb2).1.orders.filter
        (fun o => o.paymentId == some p)).length = 1
      rw [createOrder_success_orders st u sched2 si2 (some p) tok2 row2 ndb2 hcart]
      simp [List.filter_cons, builtOrder, hbase]
    | none => simp at hsucc

/-- C3 witness: a failed first persistence attempt followed by a successful
retry with the same payment reference leaves exactly one matching order. -/
theorem createOrder_idempotent_paymentRef_witness :
    (((createOrder
          (createOrder sampleState (some sampleUser) "12:30" none (some "pay_1")
            "251010-001" none none).1
          (some sampleUser) "12:30" none (some "pay_1") "251010-002"
          (some ⟨"o1", 100⟩) none).1).orders.filter
        (fun o => o.paymentId == some "pay_1")).length = 1 :=
  createOrder_idempotent_paymentRef sampleState sampleUser "12:30" "12:30" none none
    "pay_1" "251010-001" "251010-002" none (some ⟨"o1", 100⟩) none none
    (by decide) (by simp [sampleState]) (Or.inr rfl)

/-! ## Per-operation cart lemmas -/

/-- Every line produced by `addLine` is either the freshly created line for
the passed item (quantity 1) or descends from an existing line, keeping its
id and price and at most incrementing its quantity by one. -/
theorem mem_addLine (item : CartItem) :
    ∀ (ls : List CartItem), ∀ l ∈ addLine item ls,
      (l.id = item.id ∧ l.price = item.price ∧ l.quantity = 1) ∨
      ∃ l0 ∈ ls, l0.id = l.id ∧ l0.price = l.price ∧
        (l.quantity = l0.quantity ∨ l.quantity = l0.quantity + 1) := by
  intro ls
  induction ls with
  | nil =>
    intro l hl
    simp only [addLine, List.mem_singleton] at hl
    subst hl
    exact Or.inl ⟨rfl, rfl, rfl⟩
  | cons i rest ih =>
    intro l hl
    simp only [addLine] at hl
    by_cases hid : i.id = item.id
    · rw [if_pos hid] at hl
      rcases List.mem_cons.mp hl with rfl | hl
      · exact Or.inr ⟨i, List.mem_cons_self i rest, rfl, rfl, Or.inr rfl⟩
      · exact Or.inr ⟨l, List.mem_cons_of_mem i hl, rfl, rfl, Or.inl rfl⟩
    · rw [if_neg hid] at hl
      rcases List.mem_cons.mp hl with rfl | hl
      · exact Or.inr ⟨l, List.mem_cons_self l rest, rfl, rfl, Or.inl rfl⟩
      · rcases ih l hl with h | ⟨l0, hl0, he⟩
        · exact Or.inl h
        · exact Or.inr ⟨l0, List.mem_cons_of_mem i hl0, he⟩

/-- Every line left by `updateCartQuantity` descends from an existing line,
keeping id and price; its quantity is either untouched or (when the
requested quantity is non-zero) overwritten with the requested one. -/
theorem mem_updateCartQuantity (st : AppState) (itemId : String) (q : Int) :
    ∀ l ∈ (updateCartQuantity st itemId q).cartItems,
      ∃ l0 ∈ st.cartItems, l0.id = l.id ∧ l0.price = l.price ∧
        (l.quantity = l0.quantity ∨ (q ≠ 0 ∧ l.quantity = q)) := by
  intro l hl
  simp only [updateCartQuantity] at hl
  by_cases hq : q = 0
  · rw [if_pos hq] at hl
    exact ⟨l, List.mem_of_mem_filter hl, rfl, rfl, Or.inl rfl⟩
  · rw [if_neg hq] at hl
    rcases List.mem_map.mp hl with ⟨i, hi, hli⟩
    by_cases hid : i.id = itemId
    · rw [if_pos hid] at hli
      subst hli
      exact ⟨i, hi, rfl, rfl, Or.inr ⟨hq, rfl⟩⟩
    · rw [if_neg hid] at hli
      subst hli
      exact ⟨i, hi, rfl, rfl, Or.inl rfl⟩

theorem mem_removeFromCart (st : AppState) (itemId : String) :
    ∀ l ∈ (removeFromCart st itemId).cartItems, l ∈ st.cartItems := by
  intro l hl
  exact List.mem_of_mem_filter hl

/-- Positivity of all line quantities is preserved by any cart operation
whose `setQuantity` quantity (if any) is non-negative. -/
theorem applyCartOp_pos (st : AppState) (op : CartOp)
    (hpos : ∀ l ∈ st.cartItems, 0 < l.quantity) (hop : setQtyNonNeg op = true) :
    ∀ l ∈ (applyCartOp st op).cartItems, 0 < l.quantity := by
  intro l hl
  cases op with
  | add item =>
    rcases mem_addLine item st.cartItems l hl with ⟨_, _, hq⟩ | ⟨l0, hl0, _, _, hq⟩
    · omega
    · have := hpos l0 hl0
      omega
  | setQty itemId q =>
    have hq0 : (0 : Int) ≤ q := by simpa [setQtyNonNeg] using hop
    rcases mem_updateCartQuantity st itemId q l hl with ⟨l0, hl0, _, _, hq⟩
    have := hpos l0 hl0
    rcases hq with hq | ⟨hne, hq⟩ <;> omega
  | remove itemId =>
    exact hpos l (mem_removeFromCart st itemId l hl)

/-- Line prices are never recomputed: a line of the state after one cart
operation carries either the price of the item passed to that `add` or the
price of a pre-existing line with its id. -/
theorem applyCartOp_origin (st : AppState) (op : CartOp) :
    ∀ l ∈ (applyCartOp st op).cartItems,
      (∃ item : CartItem, op = CartOp.add item ∧ item.id = l.id ∧ item.price = l.price) ∨
      (∃ l0 ∈ st.cartItems, l0.id = l.id ∧ l0.price = l.price) := by
  intro l hl
  cases op with
  | add item =>
    rcases mem_addLine item st.cartItems l hl with ⟨hid, hp, _⟩ | ⟨l0, hl0, hid, hp, _⟩
    · exact Or.inl ⟨item, rfl, hid.symm, hp.symm⟩
    · exact Or.inr ⟨l0, hl0, hid, hp⟩
  | setQty itemId q =>
    rcases mem_updateCartQuantity st itemId q l hl with ⟨l0, hl0, hid, hp, _⟩
    exact Or.inr ⟨l0, hl0, hid, hp⟩
  | remove itemId =>
    exact Or.inr ⟨l, mem_removeFromCart st itemId l hl, rfl, rfl⟩

theorem applyCartOps_cons (st : AppState) (op : CartOp) (ops : List CartOp) :
    applyCartOps st (op :: ops) = applyCartOps (applyCartOp st op) ops := rfl

/-! ## Claim C7 — setQuantity ≤ 0 and the positivity invariant -/

/-- C7 counterexample: the claim says `setQuantity` with any quantity ≤ 0
removes the line; the code only removes on quantity `=== 0`, so
`updateCartQuantity(_, -2)` keeps the line and stores the non-positive
quantity −2. -/
theorem updateCartQuantity_negative_cex :
    (updateCartQuantity sampleState "1" (-2)).cartItems.length = 1 ∧
    (updateCartQuantity sampleState "1" (-2)).cartItems.map (fun l => l.quantity) =
      [(-2 : Int)] ∧
    ((-2 : Int) ≤ 0) := by
  refine ⟨rfl, rfl, by norm_num⟩

/-- C7 (amended): `setQuantity` with quantity exactly 0 removes the cart
line entirely, and after any sequence of cart operations in which every
`setQuantity` carries a non-negative quantity, starting from a cart whose
lines all have positive quantities, no stored cart line has a non-positive
quantity.  (A `setQuantity` with a negative quantity, however, is stored
as-is — see the counterexample.) -/
theorem updateCartQuantity_zero_removes_positivity (st : AppState) (itemId : String)
    (ops : List CartOp) :
    (∀ l ∈ (updateCartQuantity st itemId 0).cartItems, l.id ≠ itemId) ∧
    ((∀ l ∈ st.cartItems, 0 < l.quantity) → (∀ op ∈ ops, setQtyNonNeg op = true) →
      ∀ l ∈ (applyCartOps st ops).cartItems, 0 < l.quantity) := by
  constructor
  · intro l hl
    simp only [updateCartQuantity, if_pos rfl] at hl
    exact of_decide_eq_true (List.mem_filter.mp hl).2
  · intro hpos hops
    induction ops generalizing st with
    | nil => exact hpos
    | cons op rest ih =>
      rw [applyCartOps_cons]
      exact ih (applyCartOp st op)
        (applyCartOp_pos st op hpos (hops op (List.mem_cons_self op rest)))
        (fun o ho => hops o (List.mem_cons_of_mem op ho))

/-- C7 witness: concrete zero-removal and a concrete positive-quantity run. -/
theorem updateCartQuantity_zero_removes_positivity_witness :
    (∀ l ∈ (updateCartQuantity sampleState "1" 0).cartItems, l.id ≠ "1") ∧
    (∀ l ∈ (applyCartOps sampleState
        [CartOp.add { samplePaneer with quantity := 1 }, CartOp.setQty "2" 5,
          CartOp.remove "1"]).cartItems, 0 < l.quantity) := by
  have h := updateCartQuantity_zero_removes_positivity sampleState "1"
    [CartOp.add { samplePaneer with quantity := 1 }, CartOp.setQty "2" 5, CartOp.remove "1"]
  exact ⟨h.1, h.2 (by decide) (by decide)⟩

/-! ## Claim C5 — the allergen gate's comparison -/

/-- C5 counterexample: the claim requires a case-insensitive comparison, so
item allergens `["Dairy"]` against user allergens `["dairy"]` should block;
the code compares with `includes` (string `===`) and does not block. -/
theorem checkAllergen_case_sensitive_cex :
    specBlockedCaseInsensitive ["dairy"] ["Dairy"] = true ∧
    checkAllergenBlocked (some { sampleUser with allergens := some ["dairy"] })
      { sampleBiryani with allergens := ["Dairy"] } = false := by
  exact ⟨by decide, by decide⟩

/-- C5 (amended): the allergen gate blocks iff the item's allergen set
intersects the user's allergen set under **exact (case-sensitive)** string
comparison; in particular item allergens {"dairy"} against user allergens
{"dairy","nuts"} block, and disjoint sets do not. -/
theorem checkAllergen_blocked_iff (u : User) (item : MenuItem) :
    (checkAllergenBlocked (some u) item = true ↔
      ∃ a ∈ item.allergens, a ∈ u.allergens.getD []) ∧
    checkAllergenBlocked (some sampleUser) sampleBiryani = true ∧
    checkAllergenBlocked (some sampleUser) { sampleBiryani with allergens := ["soy"] }
      = false := by
  refine ⟨?_, by decide, by decide⟩
  simp [checkAllergenBlocked, List.any_eq_true]

/-! ## Claim C6 — the cart total and catalog price changes -/

/-- C6 counterexample: add the Biryani at catalog price 120, then raise the
catalog price to 200; `cartTotal` still evaluates to 120 (the frozen line
price), not to the claimed Σ quantity × current catalog price = 200. -/
theorem cartTotal_stale_price_cex :
    cartTotal stalePriceState = 120 ∧
    specCartTotalCurrentCatalog stalePriceState = 200 ∧
    ((120 : Rat) ≠ 200) := by
  refine ⟨?_, ?_, by norm_num⟩
  · norm_num [cartTotal, stalePriceState, updateMenuItem, addToCart, addLine,
      emptyCartState, qget, qset, sampleBiryani]
  · norm_num [specCartTotalCurrentCatalog, catalogPrice, stalePriceState, updateMenuItem,
      addToCart, addLine, emptyCartState, qget, qset, applyPatch, sampleBiryani, samplePaneer]

/-- C6 (amended): after every sequence of cart operations the cart total
equals the sum over cart lines of quantity × the line's **stored** price,
and each stored price originates from the item passed to the `add` that
created the line (or from the initial cart) — it is never re-read from the
catalog, so a later catalog price change does not affect the total. -/
theorem cartTotal_frozen_prices (st : AppState) (ops : List CartOp) :
    cartTotal (applyCartOps st ops) = snapshotSubtotal (applyCartOps st ops).cartItems ∧
    ∀ l ∈ (applyCartOps st ops).cartItems,
      (∃ item : CartItem, CartOp.add item ∈ ops ∧ item.id = l.id ∧ item.price = l.price) ∨
      (∃ l0 ∈ st.cartItems, l0.id = l.id ∧ l0.price = l.price) := by
  refine ⟨cartTotal_eq_subtotal _, ?_⟩
  induction ops generalizing st with
  | nil =>
    intro l hl
    exact Or.inr ⟨l, hl, rfl, rfl⟩
  | cons op rest ih =>
    intro l hl
    rw [applyCartOps_cons] at hl
    rcases ih (applyCartOp st op) l hl with ⟨item, hmem, hid, hp⟩ | ⟨l0, hl0, hid, hp⟩
    · exact Or.inl ⟨item, List.mem_cons_of_mem op hmem, hid, hp⟩
    · rcases applyCartOp_origin st op l0 hl0 with ⟨item, hop, hid0, hp0⟩ | ⟨l00, hl00, hid0, hp0⟩
      · refine Or.inl ⟨item, ?_, hid0.trans hid, hp0.trans hp⟩
        rw [hop]
        exact List.mem_cons_self _ _
      · exact Or.inr ⟨l00, hl00, hid0.trans hid, hp0.trans hp⟩

/-- C6 witness: a concrete single-`add` run from the empty cart. -/
theorem cartTotal_frozen_prices_witness :
    cartTotal (applyCartOps emptyCartState [CartOp.add { sampleBiryani with quantity := 1 }]) =
      snapshotSubtotal (applyCartOps emptyCartState
        [CartOp.add { sampleBiryani with quantity := 1 }]).cartItems ∧
    ∀ l ∈ (applyCartOps emptyCartState
        [CartOp.add { sampleBiryani with quantity := 1 }]).cartItems,
      (∃ item : CartItem,
        CartOp.add item ∈ [CartOp.add { sampleBiryani with quantity := 1 }] ∧
        item.id = l.id ∧ item.price = l.price) ∨
      (∃ l0 ∈ emptyCartState.cartItems, l0.id = l.id ∧ l0.price = l.price) :=
  cartTotal_frozen_prices emptyCartState [CartOp.add { sampleBiryani with quantity := 1 }]

/-! ## Claim C8 — slot generation -/

/-- The loop emits exactly the 15-minute arithmetic progression from its
start through minute 1320 inclusive. -/
theorem slotsFrom_map_time (rand : Nat → Nat) :
    ∀ (n t k : Nat), 1321 - t ≤ n →
      (slotsFrom rand k t).map TimeSlot.time =
        (List.range (slotCount t)).map (fun i => timeString (t + 15 * i)) := by
  intro n
  induction n with
  | zero =>
    intro t k hn
    rw [slotsFrom, if_neg (by omega)]
    rw [slotCount, if_neg (by omega)]
    simp
  | succ n ih =>
    intro t k hn
    by_cases ht : t ≤ 1320
    · rw [slotsFrom, if_pos ht]
      have hc : slotCount t = slotCount (t + 15) + 1 := by
        by_cases h15 : t + 15 ≤ 1320 <;> simp only [slotCount, if_pos ht, if_pos, if_neg, h15,
          if_true, if_false, ite_true, ite_false] <;> omega
      rw [hc, List.range_succ_eq_map]
      simp only [List.map_cons, List.map_map, Nat.mul_zero, Nat.add_zero]
      have hf : ((fun i => timeString (t + 15 * i)) ∘ Nat.succ) =
          (fun i => timeString ((t + 15) + 15 * i)) := by
        funext i
        simp only [Function.comp, Nat.succ_eq_add_one]
        congr 1
        ring
      rw [hf, ih (t + 15) (k + 1) (by omega)]
    · rw [slotsFrom, if_neg ht]
      rw [slotCount, if_neg ht]
      simp

/-- C8: slot generation returns the ordered sequence of slots at 15-minute
intervals from the next quarter-hour boundary of now+30 minutes (rounded up
to the 15-minute grid) through closing time 22:00 inclusive, and the empty
sequence whenever now is at or past closing. -/
theorem generateTimeSlots_spec (h m : Nat) (rand : Nat → Nat) (hm : m < 60) :
    (1320 ≤ 60 * h + m → generateTimeSlots h m rand = []) ∧
    (60 * h + m < 1320 →
      (generateTimeSlots h m rand).map TimeSlot.time =
        (List.range (slotCount (ceil15 (60 * h + m + 30)))).map
          (fun i => timeString (ceil15 (60 * h + m + 30) + 15 * i))) := by
  constructor
  · intro hclose
    rw [generateTimeSlots, if_pos (by omega)]
  · intro hopen
    rw [generateTimeSlots, if_neg (by omega)]
    have hstart : 60 * h + ((m + 30 + 14) / 15) * 15 = ceil15 (60 * h + m + 30) := by
      rw [ceil15]
      omega
    simp only [hstart]
    exact slotsFrom_map_time rand 1321 (ceil15 (60 * h + m + 30)) 0 (by omega)

/-- C8 witness: 09:50 — slots run from 10:30 (= ceil15 of 10:20+30min … i.e.
ceil15 of 620) through 22:00. -/
theorem generateTimeSlots_spec_witness :
    (1320 ≤ 60 * 9 + 50 → generateTimeSlots 9 50 (fun _ => 0) = []) ∧
    (60 * 9 + 50 < 1320 →
      (generateTimeSlots 9 50 (fun _ => 0)).map TimeSlot.time =
        (List.range (slotCount (ceil15 (60 * 9 + 50 + 30)))).map
          (fun i => timeString (ceil15 (60 * 9 + 50 + 30) + 15 * i))) :=
  generateTimeSlots_spec 9 50 (fun _ => 0) (by decide)

/-! ## Claim C9 — profile recommendations under dietary restrictions -/

/-- The source's per-restriction boolean test agrees with the spec-side
compliance predicate. -/
theorem restriction_pred_iff (r : String) (item : MenuItem) :
    ((if strToLower r = "vegetarian" ∨ strToLower r = "veg" then item.isVeg
      else if strToLower r = "vegan" then
        item.isVeg && !(item.allergens.contains "dairy") && !(item.allergens.contains "egg")
      else if strToLower r = "gluten-free" then !(item.allergens.contains "gluten")
      else true) = true) ↔
    (((strToLower r = "vegetarian" ∨ strToLower r = "veg") → item.isVeg = true) ∧
     (strToLower r = "vegan" →
       item.isVeg = true ∧ "dairy" ∉ item.allergens ∧ "egg" ∉ item.allergens) ∧
     (strToLower r = "gluten-free" → "gluten" ∉ item.allergens)) := by
  by_cases h1 : strToLower r = "vegetarian" ∨ strToLower r = "veg"
  · have h2 : ¬ strToLower r = "vegan" := by rcases h1 with h | h <;> rw [h] <;> decide
    have h3 : ¬ strToLower r = "gluten-free" := by rcases h1 with h | h <;> rw [h] <;> decide
    simp [h1, h2, h3]
  · rw [if_neg h1]
    by_cases h2 : strToLower r = "vegan"
    · have h3 : ¬ strToLower r = "gluten-free" := by rw [h2]; decide
      simp [h1, h2, h3, List.elem_iff, and_assoc]
    · rw [if_neg h2]
      by_cases h3 : strToLower r = "gluten-free"
      · simp [h1, h2, h3, List.elem_iff]
      · simp [h1, h2, h3]

/-- C9 counterexample: the claim requires the returned items to be available
and capped at N (5–8); the dietary-restriction branch of the source neither
checks `isAvailable` nor slices the result, so an unavailable vegetarian item
is returned, and a 9-item compliant catalog comes back whole. -/
theorem profileRecommendations_unavailable_cex :
    getProfileRecommendations (some vegUser) [unavailablePaneer] [] = [unavailablePaneer] ∧
    unavailablePaneer.isAvailable = false ∧
    (getProfileRecommendations (some vegUser) ((List.range 9).map mkVeg) []).length = 9 := by
  exact ⟨rfl, rfl, rfl⟩

/-- C9 (amended): for a user with at least one active dietary restriction,
the profile recommendation returns exactly the catalog items compliant with
every restriction (vegetarian/veg require `isVeg`; vegan additionally
excludes the `dairy`/`egg` allergens; gluten-free excludes the `gluten`
allergen; other restrictions impose nothing) — with no availability filter
and no size cap; in particular a user with restriction "vegetarian" never
receives an item with `isVeg = false`. -/
theorem profileRecommendations_compliant (u : User) (menu : List MenuItem)
    (orders : List Order) (hres : u.dietaryRestrictions.getD [] ≠ []) :
    (∀ item : MenuItem,
      item ∈ getProfileRecommendations (some u) menu orders ↔
        item ∈ menu ∧ compliantSpec (u.dietaryRestrictions.getD []) item) ∧
    (∀ item ∈ getProfileRecommendations (some u) menu orders,
      (∃ r ∈ u.dietaryRestrictions.getD [], strToLower r = "vegetarian") →
        item.isVeg = true) := by
  have hlen : (u.dietaryRestrictions.getD []).length > 0 := List.length_pos.mpr hres
  have hmem : ∀ item : MenuItem,
      item ∈ getProfileRecommendations (some u) menu orders ↔
        item ∈ menu ∧ compliantSpec (u.dietaryRestrictions.getD []) item := by
    intro item
    simp only [getProfileRecommendations]
    rw [if_pos hlen, List.mem_filter]
    simp only [List.all_eq_true, compliantSpec]
    exact and_congr_right fun _ =>
      forall_congr' fun r => imp_congr_right fun _ => restriction_pred_iff r item
  refine ⟨hmem, ?_⟩
  intro item hitem ⟨r, hr, hveg⟩
  exact (((hmem item).mp hitem).2 r hr).1 (Or.inl hveg)

/-- C9 witness: the "vegetarian" sample user over the sample catalog. -/
theorem profileRecommendations_compliant_witness :
    (∀ item : MenuItem,
      item ∈ getProfileRecommendations (some vegUser) [sampleBiryani, samplePaneer] [] ↔
        item ∈ [sampleBiryani, samplePaneer] ∧
          compliantSpec (vegUser.dietaryRestrictions.getD []) item) ∧
    (∀ item ∈ getProfileRecommendations (some vegUser) [sampleBiryani, samplePaneer] [],
      (∃ r ∈ vegUser.dietaryRestrictions.getD [], strToLower r = "vegetarian") →
        item.isVeg = true) :=
  profileRecommendations_compliant vegUser [sampleBiryani, samplePaneer] [] (by decide)

end Unifood
